import Mathlib

/-!
Shallow embedding of the backend's core: the document-store helper layer
(`database.py`), the video-generation job lifecycle (`main.py`:
`queue_generation`, `process_veo3_job`) and the conversation/message ledger
(`main.py`: `create_conversation`, `list_messages`, `send_message`,
`process_volt_reply`).

Modelling conventions:
- Python strings are Lean `String`; the string operations used by the code
  (`strip`, `lower`, slicing, substring membership) are re-implemented over
  `List Char` so that they evaluate inside the kernel.
- `datetime.now(timezone.utc)` readings are embedded as explicit `Nat`
  parameters (or a `clock : Nat → Nat` stream read at an advancing tick):
  each separate `now()` call in the Python code corresponds to a separate
  reading, and monotonicity of real time is an explicit hypothesis where
  needed.
- A Mongo collection is an association list `List (String × doc)` from the
  ObjectId hex string to the document; insertion appends at the end (Mongo
  natural order for these workloads).
- `BackgroundTasks.add_task` work is embedded as the pure state
  transformation the task performs, parameterised by the inputs the task
  reads from the environment (API key) and by an abstract outcome for the
  operations that can raise inside its `try` block.
-/

/-! ### String helpers (List Char based, kernel-computable) -/

/-- ASCII whitespace recognised by Python's `str.strip()` (the code never
feeds non-ASCII whitespace to `strip`). -/
def isSpaceChar (c : Char) : Bool :=
  c = ' ' || c = '\t' || c = '\n' || c = '\r' || c = '\x0b' || c = '\x0c'

/-- Embedding of Python `str.strip()`. -/
def strTrim (s : String) : String :=
  String.mk (((s.data.dropWhile isSpaceChar).reverse.dropWhile isSpaceChar).reverse)

/-- Embedding of Python `str.lower()` (the code only lowercases ASCII). -/
def strLower (s : String) : String :=
  String.mk (s.data.map Char.toLower)

/-- Embedding of Python slicing `s[:n]`. -/
def strTake (s : String) (n : Nat) : String :=
  String.mk (s.data.take n)

/-- Substring occurrence on character lists (used for Python's `k in s`). -/
def hasSubstr : List Char → List Char → Bool
  | _, [] => true
  | [], _ :: _ => false
  | c :: rest, p :: ps =>
      List.isPrefixOf (p :: ps) (c :: rest) || hasSubstr rest (p :: ps)

/-- Embedding of Python `pat in s` for strings. -/
def strContains (s pat : String) : Bool :=
  hasSubstr s.data pat.data

/-- Hexadecimal digit, as accepted by `bson.ObjectId` for 24-char strings. -/
def isHexChar (c : Char) : Bool :=
  ('0' ≤ c && c ≤ '9') || ('a' ≤ c && c ≤ 'f') || ('A' ≤ c && c ≤ 'F')

/-- A string parses as a `bson.ObjectId`: exactly 24 hexadecimal characters. -/
def isValidOid (s : String) : Bool :=
  s.length = 24 && s.data.all isHexChar

/-- Embedding of `ObjectId(oid_str)` (used by `_oid` in `main.py` and the
string branch of `update_document_by_id` in `database.py`): a malformed
string is rejected (`none`), a well-formed one is normalised to the
canonical lowercase hex form the store uses as identity. -/
def parseOid (s : String) : Option String :=
  if isValidOid s then some (strLower s) else none

/-! ### Generic document store (`database.py`) -/

/-- BSON-ish values stored in document fields, as far as the code needs. -/
inductive BVal where
  | null : BVal
  | str : String → BVal
  | int : Int → BVal
  | time : Nat → BVal
  deriving DecidableEq

/-- A document is a Python dict: association list keyed by field name,
preserving insertion order. -/
abbrev MFields := List (String × BVal)

/-- Python dict assignment `d[k] = v`: replaces in place if the key exists,
appends otherwise. -/
def setField : MFields → String → BVal → MFields
  | [], k, v => [(k, v)]
  | (k', v') :: fs, k, v =>
      if k' = k then (k, v) :: fs else (k', v') :: setField fs k v

/-- Python dict lookup `d.get(k)`. -/
def getField : MFields → String → Option BVal
  | [], _ => none
  | (k', v') :: fs, k => if k' = k then some v' else getField fs k

/-- Mongo `$set` merge: each update field overwrites or is added. -/
def mergeFields (doc : MFields) (upd : MFields) : MFields :=
  upd.foldl (fun d kv => setField d kv.1 kv.2) doc

/-- Embedding of `create_document` (`database.py`) in the configured-store
case (`db` is not `None`; the unconfigured case raises and performs no
write). `t1` and `t2` are the two separate `datetime.now(timezone.utc)`
readings the function takes, in order, for `created_at` and `updated_at`;
`newId` is the ObjectId Mongo assigns. Returns the grown collection and the
new id as a string. -/
def create_document (coll : List (String × MFields)) (data : MFields)
    (t1 t2 : Nat) (newId : String) : List (String × MFields) × String :=
  let d1 := setField data "created_at" (BVal.time t1)
  let d2 := setField d1 "updated_at" (BVal.time t2)
  (coll ++ [(newId, d2)], newId)

/-- Mongo `update_one` on an id filter with a `$set` payload: merge into
the (at most one) document whose id matches; `modified_count` is 1 when
the matched document actually changed, 0 otherwise. -/
def updateFirstDoc (oid : String) (upd : MFields) :
    List (String × MFields) → List (String × MFields) × Nat
  | [] => ([], 0)
  | (i, d) :: rest =>
      if i = oid then
        let d' := mergeFields d upd
        ((i, d') :: rest, if d' = d then 0 else 1)
      else
        let res := updateFirstDoc oid upd rest
        ((i, d) :: res.1, res.2)

/-- Error raised by the store helpers. -/
inductive DbError where
  | invalidObjectId : DbError
  deriving DecidableEq

/-- Embedding of `update_document_by_id` (`database.py`), configured-store
case, with a string `doc_id`: parse the id (`ValueError` on a malformed
string), stamp `updated_at` with the `now` reading, `$set`-merge into the
matching document, and return the new collection with the modified count. -/
def update_document_by_id (coll : List (String × MFields)) (doc_id : String)
    (update : MFields) (now : Nat) :
    Except DbError (List (String × MFields) × Nat) :=
  match parseOid doc_id with
  | none => .error .invalidObjectId
  | some oid =>
      let update_data := setField update "updated_at" (BVal.time now)
      .ok (updateFirstDoc oid update_data coll)

/-- Python truthiness of the `limit` argument in `get_documents`: a limit of
0 (or `None`, embedded as 0) applies no cap. -/
def applyLimit {α : Type} (limit : Nat) (l : List α) : List α :=
  if limit = 0 then l else l.take limit

/-- Embedding of `get_documents` (`database.py`), configured-store case,
specialised to a typed collection: `find(filter)` keeps the documents
matching the filter predicate in store order, then `limit` caps the cursor. -/
def getDocs {α : Type} (coll : List (String × α)) (p : (String × α) → Bool)
    (limit : Nat) : List (String × α) :=
  applyLimit limit (coll.filter p)

/-! ### Video generation lifecycle (`main.py`, `schemas.py`) -/

/-- Status literal of `VideoRequest.status` (`schemas.py`). -/
inductive VStatus where
  | queued
  | processing
  | completed
  | failed
  deriving DecidableEq

/-- Model literal of `GeneratePayload.model` (`main.py`). -/
inductive VModel where
  | sora2
  | veo3
  deriving DecidableEq

/-- Request body of the generate endpoint (`GeneratePayload` in `main.py`). -/
structure GeneratePayload where
  prompt : String
  model : VModel
  duration_seconds : Nat := 5
  aspect_ratio : String := "16:9"
  deriving DecidableEq

/-- The mutable payload of a `videorequest` document (`schemas.py`
`VideoRequest`); the audit timestamps live in the generic store layer
(`create_document` / `update_document_by_id`) and are orthogonal to these
fields. -/
structure VideoRequest where
  prompt : String
  model : VModel
  duration_seconds : Nat
  aspect_ratio : String
  status : VStatus
  generated_url : Option String
  thumbnail_url : Option String
  error : Option String
  deriving DecidableEq

/-- A `$set` payload written by `process_veo3_job`, typed against the
`videorequest` fields: `none` leaves the field untouched, `some v` sets it
to `v` (where an inner `none` writes an explicit null, as the completed
update does for `error`). -/
structure VUpdate where
  status : Option VStatus := none
  generated_url : Option (Option String) := none
  thumbnail_url : Option (Option String) := none
  error : Option (Option String) := none
  deriving DecidableEq

/-- Apply one `$set` payload to a `videorequest` document. -/
def applyVUpdate (r : VideoRequest) (u : VUpdate) : VideoRequest :=
  { r with
    status := u.status.getD r.status
    generated_url :=
      match u.generated_url with
      | none => r.generated_url
      | some v => v
    thumbnail_url :=
      match u.thumbnail_url with
      | none => r.thumbnail_url
      | some v => v
    error :=
      match u.error with
      | none => r.error
      | some v => v }

/-- Apply a sequence of `$set` payloads in order. -/
def runVUpdates (r : VideoRequest) (us : List VUpdate) : VideoRequest :=
  us.foldl applyVUpdate r

/-- Embedding of `_simulate_thumbnail` (`main.py`). -/
def simulate_thumbnail (video_url : String) : String :=
  video_url ++ "#thumb.jpg"

/-- The mock video URL built by `process_veo3_job`. -/
def mockVideoUrl (request_id : String) : String :=
  "https://cdn.example.com/generated/" ++ request_id ++ ".mp4"

/-- The error written when the credential is missing. -/
def veo3_missing_key_error : String :=
  "VEO3_API_KEY not configured on server"

/-- Embedding of `process_veo3_job` (`main.py`) as the ordered sequence of
`$set` payloads it writes to the request's document. `api_key` is the
`os.getenv("VEO3_API_KEY")` reading (`none` when unset; Python's
`if not api_key` also treats the empty string as unconfigured).
`provider_exc` abstracts the outcome of the provider-call section of the
`try` block (the sleep / real API call): `some e` means an exception with
message `e` was raised there, diverting to the handler that writes
`failed` with the message truncated to 500 characters. -/
def process_veo3_job (api_key : Option String) (request_id : String)
    (provider_exc : Option String) : List VUpdate :=
  if api_key.getD "" = "" then
    [{ status := some .failed, error := some (some veo3_missing_key_error) }]
  else
    { status := some .processing } ::
      (match provider_exc with
       | some e =>
           [{ status := some .failed, error := some (some (strTake e 500)) }]
       | none =>
           [{ status := some .completed
              generated_url := some (some (mockVideoUrl request_id))
              thumbnail_url :=
                some (some (simulate_thumbnail (mockVideoUrl request_id)))
              error := some none }])

/-- The record `queue_generation` creates: all optional fields at their
`schemas.py` defaults and `status = queued`. -/
def initialVideoRequest (p : GeneratePayload) : VideoRequest :=
  { prompt := p.prompt
    model := p.model
    duration_seconds := p.duration_seconds
    aspect_ratio := p.aspect_ratio
    status := .queued
    generated_url := none
    thumbnail_url := none
    error := none }

/-- The `videorequest` collection. -/
structure VideoStore where
  videorequest : List (String × VideoRequest)
  deriving DecidableEq

/-- Result of the `POST /api/generate` handler. -/
structure QueueResult where
  store : VideoStore
  request_id : String
  response_status : String
  scheduled : Bool
  deriving DecidableEq

/-- Embedding of `queue_generation` (`main.py`): create the queued record
(via `create_document`, which appends it to the collection under the fresh
id `newId`), schedule the background unit exactly when the model is `veo3`
(a `sora2` record stays queued), and answer with the id and `"queued"`. -/
def queue_generation (s : VideoStore) (p : GeneratePayload)
    (newId : String) : QueueResult :=
  { store := { videorequest := s.videorequest ++ [(newId, initialVideoRequest p)] }
    request_id := newId
    response_status := "queued"
    scheduled := decide (p.model = VModel.veo3) }

/-- The request's document after the first `n` writes of the background
unit's run (state 0 is the freshly queued record). -/
def veo3StateAt (p : GeneratePayload) (api_key : Option String)
    (request_id : String) (provider_exc : Option String) (n : Nat) :
    VideoRequest :=
  runVUpdates (initialVideoRequest p)
    ((process_veo3_job api_key request_id provider_exc).take n)

/-- The field/status invariant claimed for `videorequest` records:
`generated_url` and `thumbnail_url` are non-null exactly in state
`completed`, and `error` is non-null exactly in state `failed`. -/
def urlsErrorInvariant (r : VideoRequest) : Prop :=
  ((r.generated_url ≠ none ∧ r.thumbnail_url ≠ none) ↔ r.status = .completed) ∧
  (r.error ≠ none ↔ r.status = .failed)

/-! ### Conversation / message ledger (`main.py`) -/

/-- A `conversation` document (`schemas.py` `Conversation` plus the store
timestamps). -/
structure Conversation where
  title : String
  created_by : Option String
  created_at : Nat
  updated_at : Nat
  deriving DecidableEq

/-- A `chatmessage` document (`schemas.py` `ChatMessage` plus the store
timestamps). -/
structure ChatMessage where
  conversation_id : String
  role : String
  content : String
  created_at : Nat
  updated_at : Nat
  deriving DecidableEq

/-- The two chat collections plus the position in the `now()` reading
stream (each `create_document` consumes two readings). -/
structure ChatStore where
  conversation : List (String × Conversation)
  chatmessage : List (String × ChatMessage)
  tick : Nat
  deriving DecidableEq

/-- The `create_document` call on the `chatmessage` collection: stamp the
two timestamps from the clock stream and append under the fresh id. -/
def insertChatMessage (clock : Nat → Nat) (s : ChatStore)
    (msgId conversation_id role content : String) : ChatStore :=
  { s with
    chatmessage := s.chatmessage ++
      [(msgId,
        { conversation_id := conversation_id
          role := role
          content := content
          created_at := clock s.tick
          updated_at := clock (s.tick + 1) })]
    tick := s.tick + 2 }

/-- The seed greeting `create_conversation` writes (the two adjacent Python
string literals concatenate). -/
def volt_greeting : String :=
  "⚡ Volt: Hi! I’m Volt, an open-source AI chat companion. Tell me what you’re building and I’ll help you plan, write, and ship."

/-- Result of the `POST /api/chat/conversations` handler. -/
structure CreateConversationResult where
  store : ChatStore
  conversation_id : String
  title : String
  deriving DecidableEq

/-- Embedding of `create_conversation` (`main.py`): resolve the title via
Python's `payload.title or "New Chat"` (so `None` and `""` both fall back),
create the `conversation` document, then synchronously create the seed
assistant `chatmessage` before returning. `convId` and `msgId` are the two
ObjectIds Mongo assigns. -/
def create_conversation (clock : Nat → Nat) (s : ChatStore)
    (title : Option String) (created_by : Option String)
    (convId msgId : String) : CreateConversationResult :=
  let t := if title.getD "" = "" then "New Chat" else title.getD ""
  let s1 : ChatStore :=
    { s with
      conversation := s.conversation ++
        [(convId,
          { title := t
            created_by := created_by
            created_at := clock s.tick
            updated_at := clock (s.tick + 1) })]
      tick := s.tick + 2 }
  { store := insertChatMessage clock s1 msgId convId "assistant" volt_greeting
    conversation_id := convId
    title := t }

/-- Embedding of `list_messages` (`main.py`): `get_documents` filtered on
`conversation_id` (raw string equality, no identity parsing and no
existence check), capped by `limit`, then explicitly sorted in place by
`created_at` ascending (`docs.sort(key=...)`; a stable sort, matching
Python's). -/
def list_messages (s : ChatStore) (conversation_id : String) (limit : Nat) :
    List (String × ChatMessage) :=
  let docs := getDocs s.chatmessage
    (fun d => d.2.conversation_id = conversation_id) limit
  List.insertionSort (fun a b => a.2.created_at ≤ b.2.created_at) docs

/-- Synchronous errors of the chat handlers (`HTTPException` 400 / 404). -/
inductive ApiError where
  | invalidIdentity
  | notFound
  deriving DecidableEq

/-- First association-list match, as `find_one({_id: oid})`. -/
def lookupAssoc {α : Type} : List (String × α) → String → Option α
  | [], _ => none
  | (k, v) :: rest, key => if k = key then some v else lookupAssoc rest key

/-- Embedding of `send_message` (`main.py`): `_oid` rejects a malformed id
with the 400 `InvalidIdentity` error; `find_one` on the `conversation`
collection rejects an absent conversation with the 404 `NotFound` error;
otherwise the user `chatmessage` is created synchronously (under the raw
id string the caller supplied), the reply unit is scheduled, and the
handler answers `ok = true`. -/
def send_message (clock : Nat → Nat) (s : ChatStore)
    (conversation_id content msgId : String) :
    Except ApiError (ChatStore × Bool) :=
  match parseOid conversation_id with
  | none => .error .invalidIdentity
  | some oid =>
      match lookupAssoc s.conversation oid with
      | none => .error .notFound
      | some _ =>
          .ok (insertChatMessage clock s msgId conversation_id "user" content,
               true)

/-- The guidance sentence of the reply heuristic (adjacent Python literals
concatenated). -/
def volt_guidance : String :=
  "I’m your open-source AI co-pilot. I can help with creative prompts, coding tips, and product ideas. Ask me anything!"

/-- The canned capability reply. -/
def volt_help_reply : String :=
  "⚡ Volt: Here’s what I can do right now:\n- Brainstorm prompts for your video generator (Veo3/Sora2).\n- Explain code and APIs in simple terms.\n- Outline product ideas and next steps.\n- Keep track of our chat in this conversation."

/-- The keywords triggering the capability reply. -/
def volt_keywords : List String :=
  ["help", "what can you do", "commands", "features"]

/-- The deterministic reply heuristic of `process_volt_reply`. -/
def volt_reply (user_text : String) : String :=
  if (strTrim user_text).length < 4 then
    "⚡ Volt: Could you share a bit more detail? " ++ volt_guidance
  else if volt_keywords.any (fun k => strContains (strLower user_text) k) then
    volt_help_reply
  else
    "⚡ Volt: " ++ strTrim user_text ++
      " — interesting! Here’s a concise suggestion: break it into steps, try a quick prototype, and iterate. I can sketch steps if you want."

/-- Embedding of `process_volt_reply` (`main.py`): on a normal run the
heuristic reply is stored as one assistant `chatmessage`; if anything in
the `try` block raises (abstracted by `internal_exc = some e`), the handler
instead stores one assistant `chatmessage` whose content embeds the error
message truncated to 300 characters. Either way the unit returns normally
(a total function into `ChatStore`: nothing propagates to a caller). -/
def process_volt_reply (clock : Nat → Nat) (s : ChatStore)
    (conversation_id user_text : String) (internal_exc : Option String)
    (msgId : String) : ChatStore :=
  match internal_exc with
  | none =>
      insertChatMessage clock s msgId conversation_id "assistant"
        (volt_reply user_text)
  | some e =>
      insertChatMessage clock s msgId conversation_id "assistant"
        ("⚡ Volt: Oops, I hit an error: " ++ strTake e 300)

/-! ### Helper lemmas -/

set_option maxRecDepth 4000

theorem getField_setField_same (fs : MFields) (k : String) (v : BVal) :
    getField (setField fs k v) k = some v := by
  induction fs with
  | nil => simp [setField, getField]
  | cons head tail ih =>
      obtain ⟨k', v'⟩ := head
      by_cases h : k' = k
      · simp [setField, getField, h]
      · simp [setField, getField, h, ih]

theorem getField_setField_other (fs : MFields) (k k' : String) (v : BVal)
    (h : k ≠ k') : getField (setField fs k' v) k = getField fs k := by
  have h' : ¬k' = k := fun hh => h hh.symm
  induction fs with
  | nil => simp [setField, getField, h']
  | cons head tail ih =>
      obtain ⟨a, b⟩ := head
      by_cases ha : a = k'
      · subst ha
        simp [setField, getField, h']
      · simp [setField, getField, ha, ih]

theorem updateFirstDoc_no_match (oid : String) (upd : MFields)
    (coll : List (String × MFields)) (h : ∀ e ∈ coll, e.1 ≠ oid) :
    updateFirstDoc oid upd coll = (coll, 0) := by
  induction coll with
  | nil => rfl
  | cons head tail ih =>
      obtain ⟨i, d⟩ := head
      have hi : i ≠ oid := h (i, d) (List.mem_cons_self _ _)
      have ht := ih fun e he => h e (List.mem_cons_of_mem _ he)
      simp [updateFirstDoc, hi, ht]

theorem mem_applyLimit {α : Type} {a : α} {n : Nat} {l : List α}
    (h : a ∈ applyLimit n l) : a ∈ l := by
  unfold applyLimit at h
  split at h
  · exact h
  · exact List.take_subset _ _ h

theorem applyLimit_singleton {α : Type} (n : Nat) (a : α) :
    applyLimit n [a] = [a] := by
  cases n with
  | zero => rfl
  | succ k => simp [applyLimit]

/-! ### Claim theorems -/

/-- Claim C8, counterexample: the claim says `create_document` stamps
`created_at` and `updated_at` with one and the same "current time of
insertion", but the code takes two separate `datetime.now` readings. In a
run where the clock advances between the two readings (first reading 0,
second reading 1) the stored timestamps differ. -/
theorem create_document_equal_stamps_cex :
    (create_document [] [] 0 1 "68e1a9c0f1d2e3a4b5c6d7e8").1 =
      [("68e1a9c0f1d2e3a4b5c6d7e8",
        [("created_at", BVal.time 0), ("updated_at", BVal.time 1)])] ∧
    getField [("created_at", BVal.time 0), ("updated_at", BVal.time 1)]
        "created_at" ≠
      getField [("created_at", BVal.time 0), ("updated_at", BVal.time 1)]
        "updated_at" := by
  constructor
  · rfl
  · decide

/-- Claim C8 (amended): `create_document` stamps `created_at` from its
first `now()` reading and `updated_at` from its second, so with a monotone
clock `created_at ≤ updated_at` (equality exactly when the clock does not
advance between the readings, not in general); both stamps are assigned by
the store layer itself, overwriting any caller-supplied value, every other
caller field is preserved, and the record is appended under the returned
fresh id. -/
theorem create_document_stamps_timestamps :
    ∀ (coll : List (String × MFields)) (data : MFields) (t1 t2 : Nat)
      (newId : String), t1 ≤ t2 →
    ∃ d : MFields,
      create_document coll data t1 t2 newId = (coll ++ [(newId, d)], newId) ∧
      getField d "created_at" = some (BVal.time t1) ∧
      getField d "updated_at" = some (BVal.time t2) ∧
      (∀ k, k ≠ "created_at" → k ≠ "updated_at" →
        getField d k = getField data k) := by
  intro coll data t1 t2 newId _
  refine ⟨setField (setField data "created_at" (BVal.time t1)) "updated_at"
    (BVal.time t2), rfl, ?_, ?_, ?_⟩
  · rw [getField_setField_other _ _ _ _ (by decide)]
    exact getField_setField_same _ _ _
  · exact getField_setField_same _ _ _
  · intro k h1 h2
    rw [getField_setField_other _ _ _ _ h2, getField_setField_other _ _ _ _ h1]

/-- Witness for the amended C8 theorem at a concrete insertion. -/
theorem create_document_stamps_timestamps_witness :
    ∃ d : MFields,
      create_document [] [("prompt", BVal.str "a cat")] 3 4
          "68e1a9c0f1d2e3a4b5c6d7e8" =
        ([("68e1a9c0f1d2e3a4b5c6d7e8", d)], "68e1a9c0f1d2e3a4b5c6d7e8") ∧
      getField d "created_at" = some (BVal.time 3) ∧
      getField d "updated_at" = some (BVal.time 4) ∧
      (∀ k, k ≠ "created_at" → k ≠ "updated_at" →
        getField d k = getField [("prompt", BVal.str "a cat")] k) :=
  create_document_stamps_timestamps [] [("prompt", BVal.str "a cat")] 3 4
    "68e1a9c0f1d2e3a4b5c6d7e8" (by decide)

/-- Claim C9: `update_document_by_id` with a well-formed id that matches no
stored document returns modified count 0 without error, and the collection
is returned unchanged (no record created, every other document intact). -/
theorem update_by_id_absent_id_is_noop :
    ∀ (coll : List (String × MFields)) (doc_id : String) (upd : MFields)
      (now : Nat) (oid : String),
      parseOid doc_id = some oid →
      (∀ e ∈ coll, e.1 ≠ oid) →
      update_document_by_id coll doc_id upd now = .ok (coll, 0) := by
  intro coll doc_id upd now oid hparse habs
  have h0 := updateFirstDoc_no_match oid
    (setField upd "updated_at" (BVal.time now)) coll habs
  simp [update_document_by_id, hparse, h0]

/-- Witness for the C9 theorem at a concrete collection and id. -/
theorem update_by_id_absent_id_is_noop_witness :
    update_document_by_id
      [("aaaabbbbccccddddeeeeffff", [("x", BVal.int 1)])]
      "0123456789abcdef01234567" [("y", BVal.int 2)] 7 =
    .ok ([("aaaabbbbccccddddeeeeffff", [("x", BVal.int 1)])], 0) :=
  update_by_id_absent_id_is_noop _ _ _ _ "0123456789abcdef01234567"
    (by decide) (by decide)

/-- Claim C10: `list_messages` performs no identity-format or existence
check on `conversation_id` — it never consults the `conversation`
collection at all — and for any id string (well-formed or not) whose
messages are absent it returns the empty item list. -/
theorem list_messages_no_check_empty :
    ∀ (s : ChatStore) (conversation_id : String) (limit : Nat),
      (∀ convs, list_messages { s with conversation := convs }
          conversation_id limit = list_messages s conversation_id limit) ∧
      ((∀ d ∈ s.chatmessage, d.2.conversation_id ≠ conversation_id) →
        list_messages s conversation_id limit = []) ∧
      (∀ d ∈ list_messages s conversation_id limit,
        d.2.conversation_id = conversation_id) := by
  intro s cid limit
  refine ⟨fun _ => rfl, ?_, ?_⟩
  · intro h
    have hf : s.chatmessage.filter
        (fun d => decide (d.2.conversation_id = cid)) = [] := by
      rw [List.filter_eq_nil_iff]
      intro a ha
      simpa using h a ha
    simp [list_messages, getDocs, hf, applyLimit]
  · intro d hd
    have hmem : d ∈ getDocs s.chatmessage
        (fun d => d.2.conversation_id = cid) limit :=
      (List.perm_insertionSort _ _).mem_iff.mp hd
    have : d ∈ s.chatmessage.filter
        (fun d => decide (d.2.conversation_id = cid)) := mem_applyLimit hmem
    simpa using (List.mem_filter.mp this).2

/-- Witness for the C10 theorem: a malformed id (which `send_message`
would reject) with no matching stored message yields the empty list. -/
theorem list_messages_no_check_empty_witness :
    parseOid "totally-invalid-identity" = none ∧
    list_messages
      { conversation := []
        chatmessage := [("m1",
          { conversation_id := "aaaabbbbccccddddeeeeffff", role := "user",
            content := "hi", created_at := 0, updated_at := 1 })]
        tick := 2 } "totally-invalid-identity" 100 = [] :=
  ⟨by decide,
   (list_messages_no_check_empty _ "totally-invalid-identity" 100).2.1
     (by decide)⟩

/-- Claim C5: `list_messages` explicitly re-sorts the matching messages:
its result is pairwise non-decreasing in `created_at` and is a permutation
of the store-order result of the filtered (and capped) query. -/
theorem list_messages_sorted :
    ∀ (s : ChatStore) (conversation_id : String) (limit : Nat),
      List.Sorted (fun a b => a.2.created_at ≤ b.2.created_at)
        (list_messages s conversation_id limit) ∧
      (list_messages s conversation_id limit).Perm
        (getDocs s.chatmessage
          (fun d => d.2.conversation_id = conversation_id) limit) := by
  intro s cid limit
  constructor
  · have hs := @List.sorted_insertionSort (String × ChatMessage)
      (fun a b => a.2.created_at ≤ b.2.created_at)
      (fun a b => Nat.decLe _ _)
      ⟨fun a b => Nat.le_total _ _⟩ ⟨fun _ _ _ => Nat.le_trans⟩
      (getDocs s.chatmessage
        (fun d => decide (d.2.conversation_id = cid)) limit)
    exact hs
  · exact List.perm_insertionSort _ _

/-- Claim C4: `send_message` rejects a malformed conversation id with
`InvalidIdentity`, rejects a well-formed id of an absent conversation with
`NotFound`, and on an existing conversation synchronously appends the user
`ChatMessage` and answers `ok = true`. -/
theorem send_message_spec :
    ∀ (clock : Nat → Nat) (s : ChatStore)
      (conversation_id content msgId : String),
      (parseOid conversation_id = none →
        send_message clock s conversation_id content msgId =
          .error .invalidIdentity) ∧
      (∀ oid, parseOid conversation_id = some oid →
        lookupAssoc s.conversation oid = none →
        send_message clock s conversation_id content msgId =
          .error .notFound) ∧
      (∀ oid c, parseOid conversation_id = some oid →
        lookupAssoc s.conversation oid = some c →
        send_message clock s conversation_id content msgId =
          .ok (insertChatMessage clock s msgId conversation_id "user" content,
               true) ∧
        (insertChatMessage clock s msgId conversation_id "user"
            content).chatmessage =
          s.chatmessage ++
            [(msgId,
              { conversation_id := conversation_id, role := "user",
                content := content, created_at := clock s.tick,
                updated_at := clock (s.tick + 1) })]) := by
  intro clock s cid content msgId
  refine ⟨?_, ?_, ?_⟩
  · intro h
    simp [send_message, h]
  · intro oid h1 h2
    simp [send_message, h1, h2]
  · intro oid c h1 h2
    exact ⟨by simp [send_message, h1, h2], rfl⟩

/-- Witness for the C4 theorem: all three branches at concrete inputs. -/
theorem send_message_spec_witness :
    send_message (fun n => n)
      { conversation := [("0123456789abcdef01234567",
          { title := "t", created_by := none, created_at := 0,
            updated_at := 1 })]
        chatmessage := [], tick := 2 }
      "not-an-identity" "hello" "m9" = .error .invalidIdentity ∧
    send_message (fun n => n)
      { conversation := [("0123456789abcdef01234567",
          { title := "t", created_by := none, created_at := 0,
            updated_at := 1 })]
        chatmessage := [], tick := 2 }
      "aaaabbbbccccddddeeeeffff" "hello" "m9" = .error .notFound ∧
    send_message (fun n => n)
      { conversation := [("0123456789abcdef01234567",
          { title := "t", created_by := none, created_at := 0,
            updated_at := 1 })]
        chatmessage := [], tick := 2 }
      "0123456789abcdef01234567" "hello" "m9" =
      .ok ({ conversation := [("0123456789abcdef01234567",
               { title := "t", created_by := none, created_at := 0,
                 updated_at := 1 })]
             chatmessage := [("m9",
               { conversation_id := "0123456789abcdef01234567",
                 role := "user", content := "hello", created_at := 2,
                 updated_at := 3 })]
             tick := 4 }, true) :=
  ⟨(send_message_spec (fun n => n)
      { conversation := [("0123456789abcdef01234567",
          { title := "t", created_by := none, created_at := 0,
            updated_at := 1 })]
        chatmessage := [], tick := 2 } "not-an-identity" "hello" "m9").1
      (by decide),
   (send_message_spec (fun n => n)
      { conversation := [("0123456789abcdef01234567",
          { title := "t", created_by := none, created_at := 0,
            updated_at := 1 })]
        chatmessage := [], tick := 2 } "aaaabbbbccccddddeeeeffff" "hello"
        "m9").2.1 "aaaabbbbccccddddeeeeffff" (by decide) (by decide),
   ((send_message_spec (fun n => n)
      { conversation := [("0123456789abcdef01234567",
          { title := "t", created_by := none, created_at := 0,
            updated_at := 1 })]
        chatmessage := [], tick := 2 } "0123456789abcdef01234567" "hello"
        "m9").2.2 "0123456789abcdef01234567"
        { title := "t", created_by := none, created_at := 0, updated_at := 1 }
        (by decide) (by decide)).1⟩

/-- Claim C6: `create_conversation` creates the conversation and
synchronously appends exactly one seed assistant `ChatMessage` before
returning, so `list_messages` on the fresh id immediately contains an
assistant message (no background unit involved). -/
theorem create_conversation_seeds_assistant :
    ∀ (clock : Nat → Nat) (s : ChatStore) (title created_by : Option String)
      (convId msgId : String) (limit : Nat),
      (∀ d ∈ s.chatmessage, d.2.conversation_id ≠ convId) →
      (create_conversation clock s title created_by convId
          msgId).conversation_id = convId ∧
      (∃ c : Conversation,
        (create_conversation clock s title created_by convId
            msgId).store.conversation = s.conversation ++ [(convId, c)]) ∧
      (∃ m : ChatMessage, m.role = "assistant" ∧ m.content = volt_greeting ∧
        m.conversation_id = convId ∧
        (create_conversation clock s title created_by convId
            msgId).store.chatmessage = s.chatmessage ++ [(msgId, m)]) ∧
      (∃ d ∈ list_messages
          (create_conversation clock s title created_by convId msgId).store
          convId limit,
        d.2.role = "assistant") := by
  intro clock s title created_by convId msgId limit hfresh
  refine ⟨rfl, ⟨_, rfl⟩, ⟨_, rfl, rfl, rfl, rfl⟩, ?_⟩
  have hf : s.chatmessage.filter
      (fun d => decide (d.2.conversation_id = convId)) = [] := by
    rw [List.filter_eq_nil_iff]
    intro a ha
    simpa using hfresh a ha
  have hdocs : list_messages
      (create_conversation clock s title created_by convId msgId).store
      convId limit =
      [(msgId,
        { conversation_id := convId, role := "assistant",
          content := volt_greeting, created_at := clock (s.tick + 2),
          updated_at := clock (s.tick + 2 + 1) })] := by
    simp [list_messages, getDocs, create_conversation, insertChatMessage,
      List.filter_append, hf, applyLimit_singleton, List.insertionSort]
  rw [hdocs]
  exact ⟨_, List.mem_singleton.mpr rfl, rfl⟩

/-- Witness for the C6 theorem on a fresh (empty) store. -/
theorem create_conversation_seeds_assistant_witness :
    ∃ d ∈ list_messages
      (create_conversation (fun n => n)
        { conversation := [], chatmessage := [], tick := 0 }
        (some "My Chat") none "c1" "m1").store "c1" 100,
      d.2.role = "assistant" :=
  (create_conversation_seeds_assistant (fun n => n)
    { conversation := [], chatmessage := [], tick := 0 }
    (some "My Chat") none "c1" "m1" 100 (by decide)).2.2.2

/-- Claim C7: the background reply unit always returns normally and always
appends exactly one assistant message; on an internal failure the appended
assistant message carries the error description truncated to at most 300
characters instead of the failure propagating to any caller. -/
theorem volt_reply_unit_never_propagates :
    ∀ (clock : Nat → Nat) (s : ChatStore)
      (conversation_id user_text msgId : String),
      (∀ internal_exc, ∃ m : ChatMessage,
        m.role = "assistant" ∧ m.conversation_id = conversation_id ∧
        (process_volt_reply clock s conversation_id user_text internal_exc
            msgId).chatmessage = s.chatmessage ++ [(msgId, m)]) ∧
      (∀ e, ∃ m : ChatMessage,
        m.role = "assistant" ∧
        m.content = "⚡ Volt: Oops, I hit an error: " ++ strTake e 300 ∧
        (strTake e 300).length ≤ 300 ∧
        (process_volt_reply clock s conversation_id user_text (some e)
            msgId).chatmessage = s.chatmessage ++ [(msgId, m)]) := by
  intro clock s cid user_text msgId
  constructor
  · intro internal_exc
    cases internal_exc with
    | none => exact ⟨_, rfl, rfl, rfl⟩
    | some e => exact ⟨_, rfl, rfl, rfl⟩
  · intro e
    refine ⟨_, rfl, rfl, ?_, rfl⟩
    show (e.data.take 300).length ≤ 300
    rw [List.length_take]
    omega

/-- Claim C1: when `VEO3_API_KEY` is not configured (unset or empty), the
background unit ends the record in `failed` with the fixed non-empty error
string, and at no point of its run — between none, some, or all of its
writes — is the record's status `processing`. -/
theorem veo3_missing_key_fails_without_processing :
    ∀ (p : GeneratePayload) (api_key : Option String) (request_id : String)
      (provider_exc : Option String),
      api_key.getD "" = "" →
      (∀ n, 1 ≤ n →
        (veo3StateAt p api_key request_id provider_exc n).status = .failed ∧
        (veo3StateAt p api_key request_id provider_exc n).error =
          some veo3_missing_key_error) ∧
      veo3_missing_key_error ≠ "" ∧
      (∀ n, (veo3StateAt p api_key request_id provider_exc n).status ≠
        .processing) := by
  intro p api rid exc h
  have htr : process_veo3_job api rid exc =
      [{ status := some .failed,
         error := some (some veo3_missing_key_error) }] := by
    unfold process_veo3_job
    rw [if_pos h]
  refine ⟨?_, by decide, ?_⟩
  · intro n hn
    match n, hn with
    | n + 1, _ =>
        constructor
        · simp [veo3StateAt, htr, runVUpdates, applyVUpdate,
            initialVideoRequest]
        · simp [veo3StateAt, htr, runVUpdates, applyVUpdate,
            initialVideoRequest]
  · intro n
    match n with
    | 0 => simp [veo3StateAt, htr, runVUpdates, initialVideoRequest]
    | n + 1 =>
        simp [veo3StateAt, htr, runVUpdates, applyVUpdate,
          initialVideoRequest]

/-- Witness for the C1 theorem: a concrete veo3 submission with the
credential unset. -/
theorem veo3_missing_key_fails_witness :
    (veo3StateAt { prompt := "a cat surfing", model := .veo3 } none "r1"
        none 1).status = .failed ∧
    (veo3StateAt { prompt := "a cat surfing", model := .veo3 } none "r1"
        none 1).error = some veo3_missing_key_error ∧
    (veo3StateAt { prompt := "a cat surfing", model := .veo3 } none "r1"
        none 1).status ≠ .processing :=
  ⟨((veo3_missing_key_fails_without_processing
      { prompt := "a cat surfing", model := .veo3 } none "r1" none
      (by decide)).1 1 (by decide)).1,
   ((veo3_missing_key_fails_without_processing
      { prompt := "a cat surfing", model := .veo3 } none "r1" none
      (by decide)).1 1 (by decide)).2,
   (veo3_missing_key_fails_without_processing
      { prompt := "a cat surfing", model := .veo3 } none "r1" none
      (by decide)).2.2 1⟩

/-- Claim C2: along every run of the background unit (any credential
state, any provider outcome) and after every prefix of its writes, the
record satisfies the field/status invariant: `generated_url` and
`thumbnail_url` non-null iff `completed`, `error` non-null iff `failed`. -/
theorem generation_record_field_invariant :
    ∀ (p : GeneratePayload) (api_key : Option String) (request_id : String)
      (provider_exc : Option String) (n : Nat),
      urlsErrorInvariant (veo3StateAt p api_key request_id provider_exc n) := by
  intro p api rid exc n
  by_cases h : api.getD "" = ""
  · have htr : process_veo3_job api rid exc =
        [{ status := some .failed,
           error := some (some veo3_missing_key_error) }] := by
      unfold process_veo3_job
      rw [if_pos h]
    match n with
    | 0 =>
        simp [veo3StateAt, htr, runVUpdates, initialVideoRequest,
          urlsErrorInvariant]
    | n + 1 =>
        simp [veo3StateAt, htr, runVUpdates, applyVUpdate,
          initialVideoRequest, urlsErrorInvariant]
  · cases exc with
    | none =>
        have htr : process_veo3_job api rid none =
            [{ status := some .processing },
             { status := some .completed
               generated_url := some (some (mockVideoUrl rid))
               thumbnail_url :=
                 some (some (simulate_thumbnail (mockVideoUrl rid)))
               error := some none }] := by
          unfold process_veo3_job
          rw [if_neg h]
        match n with
        | 0 =>
            simp [veo3StateAt, htr, runVUpdates, initialVideoRequest,
              urlsErrorInvariant]
        | 1 =>
            simp [veo3StateAt, htr, runVUpdates, applyVUpdate,
              initialVideoRequest, urlsErrorInvariant]
        | n + 2 =>
            simp [veo3StateAt, htr, runVUpdates, applyVUpdate,
              initialVideoRequest, urlsErrorInvariant, List.take_succ_cons]
    | some e =>
        have htr : process_veo3_job api rid (some e) =
            [{ status := some .processing },
             { status := some .failed,
               error := some (some (strTake e 500)) }] := by
          unfold process_veo3_job
          rw [if_neg h]
        match n with
        | 0 =>
            simp [veo3StateAt, htr, runVUpdates, initialVideoRequest,
              urlsErrorInvariant]
        | 1 =>
            simp [veo3StateAt, htr, runVUpdates, applyVUpdate,
              initialVideoRequest, urlsErrorInvariant]
        | n + 2 =>
            simp [veo3StateAt, htr, runVUpdates, applyVUpdate,
              initialVideoRequest, urlsErrorInvariant, List.take_succ_cons]

/-- Claim C3: once the record's status is terminal (`completed` or
`failed`) no later point of the background unit's run changes it; and the
generate endpoint only ever appends a fresh record, leaving every existing
record untouched. -/
theorem terminal_status_persists :
    (∀ (p : GeneratePayload) (api_key : Option String) (request_id : String)
       (provider_exc : Option String) (n m : Nat),
       n ≤ m →
       ((veo3StateAt p api_key request_id provider_exc n).status =
          .completed ∨
        (veo3StateAt p api_key request_id provider_exc n).status = .failed) →
       (veo3StateAt p api_key request_id provider_exc m).status =
         (veo3StateAt p api_key request_id provider_exc n).status) ∧
    (∀ (s : VideoStore) (p : GeneratePayload) (newId : String),
       (queue_generation s p newId).store.videorequest =
         s.videorequest ++ [(newId, initialVideoRequest p)]) := by
  constructor
  · intro p api rid exc n m hnm hterm
    by_cases h : api.getD "" = ""
    · have htr : process_veo3_job api rid exc =
          [{ status := some .failed,
             error := some (some veo3_missing_key_error) }] := by
        unfold process_veo3_job
        rw [if_pos h]
      cases n with
      | zero =>
          exfalso
          rcases hterm with h1 | h1 <;>
            simp [veo3StateAt, htr, runVUpdates, initialVideoRequest] at h1
      | succ n =>
          cases m with
          | zero => omega
          | succ m =>
              have e1 : (veo3StateAt p api rid exc (n + 1)).status =
                  .failed := by
                simp [veo3StateAt, htr, runVUpdates, applyVUpdate,
                  initialVideoRequest]
              have e2 : (veo3StateAt p api rid exc (m + 1)).status =
                  .failed := by
                simp [veo3StateAt, htr, runVUpdates, applyVUpdate,
                  initialVideoRequest]
              rw [e1, e2]
    · cases exc with
      | none =>
          have htr : process_veo3_job api rid none =
              [{ status := some .processing },
               { status := some .completed
                 generated_url := some (some (mockVideoUrl rid))
                 thumbnail_url :=
                   some (some (simulate_thumbnail (mockVideoUrl rid)))
                 error := some none }] := by
            unfold process_veo3_job
            rw [if_neg h]
          match n, m, hnm with
          | 0, m, _ =>
              exfalso
              rcases hterm with h1 | h1 <;>
                simp [veo3StateAt, htr, runVUpdates, initialVideoRequest]
                  at h1
          | 1, m, _ =>
              exfalso
              rcases hterm with h1 | h1 <;>
                simp [veo3StateAt, htr, runVUpdates, applyVUpdate,
                  initialVideoRequest] at h1
          | n + 2, m + 2, _ =>
              have e1 : (veo3StateAt p api rid none (n + 2)).status =
                  .completed := by
                simp [veo3StateAt, htr, runVUpdates, applyVUpdate,
                  initialVideoRequest, List.take_succ_cons]
              have e2 : (veo3StateAt p api rid none (m + 2)).status =
                  .completed := by
                simp [veo3StateAt, htr, runVUpdates, applyVUpdate,
                  initialVideoRequest, List.take_succ_cons]
              rw [e1, e2]
      | some e =>
          have htr : process_veo3_job api rid (some e) =
              [{ status := some .processing },
               { status := some .failed,
                 error := some (some (strTake e 500)) }] := by
            unfold process_veo3_job
            rw [if_neg h]
          match n, m, hnm with
          | 0, m, _ =>
              exfalso
              rcases hterm with h1 | h1 <;>
                simp [veo3StateAt, htr, runVUpdates, initialVideoRequest]
                  at h1
          | 1, m, _ =>
              exfalso
              rcases hterm with h1 | h1 <;>
                simp [veo3StateAt, htr, runVUpdates, applyVUpdate,
                  initialVideoRequest] at h1
          | n + 2, m + 2, _ =>
              have e1 : (veo3StateAt p api rid (some e) (n + 2)).status =
                  .failed := by
                simp [veo3StateAt, htr, runVUpdates, applyVUpdate,
                  initialVideoRequest, List.take_succ_cons]
              have e2 : (veo3StateAt p api rid (some e) (m + 2)).status =
                  .failed := by
                simp [veo3StateAt, htr, runVUpdates, applyVUpdate,
                  initialVideoRequest, List.take_succ_cons]
              rw [e1, e2]
  · intro s p newId
    rfl

/-- Witness for the C3 theorem: a record that failed (missing credential)
stays failed at every later point, here from write 1 to write 2. -/
theorem terminal_status_persists_witness :
    (1 ≤ 2 ∧
     (veo3StateAt { prompt := "x", model := .veo3 } none "r" none 1).status =
       .failed) ∧
    (veo3StateAt { prompt := "x", model := .veo3 } none "r" none 2).status =
      (veo3StateAt { prompt := "x", model := .veo3 } none "r" none 1).status :=
  ⟨⟨by decide, by decide⟩,
   terminal_status_persists.1 { prompt := "x", model := .veo3 } none "r"
     none 1 2 (by decide) (Or.inr (by decide))⟩
